import Mathlib

/-!
# Verification of the book-recommender dashboard script

A shallow embedding of `src/gradio-dashboard.py`.  The script loads a CSV of
book rows into a pandas DataFrame `books`, derives a `large_thumbnail` column,
builds a Chroma similarity index over tagged description lines, and answers
queries with `retrieve_semantic_recommendations` followed by the presentation
formatter `recommend_books`.

Modelling decisions, each justified by the Python/pandas semantics it mirrors:

* A DataFrame is a `List Book` in row order; boolean-mask selection
  (`books[mask]`) and `.head(n)` are `List.filter` and `List.take`, both of
  which return *new* frames in pandas (a fresh copy, not a view that aliases
  the global table).
* The similarity search `db_books.similarity_search(query, k=initial_top_k)`
  is an external black box; we quantify over its output: a list of hit
  contents (`page_content` strings), one per returned document.
* `int(rec.page_content.strip('"').split()[0])` is fallible Python code:
  `[0]` raises `IndexError` on a whitespace-only content and `int(...)`
  raises `ValueError` on a non-integer leading token.  The embedding returns
  `Except String Int` (`parseHit`), and the whole query pipeline is
  `Except String _`, with the list comprehension becoming `List.mapM` (which
  stops at the first failure, as Python does).
* `category: str = None` / `tone: str = None` become `Option String`:
  `none` is Python's `None`, `some s` a string.  The pandas elementwise
  comparison `series == category` is `some value == category` on
  `Option String` equality: comparing against `None` yields `False` for
  every row, exactly as pandas does.
* Emotion-score columns are numeric (floats in the CSV); we model them as `ℚ`,
  which carries every float value and the same total order on them.
  `sort_values(by=col, ascending=False)` is a sort by the descending order on
  that column; pandas' quicksort fixes one particular permutation among ties,
  and every claim below is insensitive to the tie order, so we use
  `List.insertionSort` with the reflexive descending relation.
* `str.strip('"')`, `str.split()`, `str.split(";")`, `" ".join` and Python
  `int()` literal syntax (optional sign, digits with single interior
  underscores) are re-implemented over `List Char` so that every definition
  reduces in the kernel.
-/

namespace BookRec

/-- One row of `books_with_categories.csv` as the dashboard uses it:
`isbn13`, `title`, `authors` (semicolon-delimited), `description`,
`simple_categories`, the source `thumbnail` URL (`none` models a NaN cell),
the derived `large_thumbnail` column, and the five emotion-score columns. -/
structure Book where
  isbn13 : Int
  title : String
  authors : String
  description : String
  simple_categories : String
  thumbnail : Option String
  large_thumbnail : String
  joy : ℚ
  surprise : ℚ
  anger : ℚ
  fear : ℚ
  sadness : ℚ
deriving DecidableEq

/-- Python `s.strip(c)`: remove every leading and trailing occurrence of the
character `c`. -/
def pyStripChar (c : Char) (s : String) : String :=
  String.mk (((s.toList.dropWhile (· == c)).reverse.dropWhile (· == c)).reverse)

/-- Split a character list at every character satisfying `p`, keeping empty
segments (the behaviour of Python `str.split(sep)` for a one-character
separator, and the raw segmentation under `str.split()` before empties are
dropped).  The result is never `[]`. -/
def splitChars (p : Char → Bool) : List Char → List (List Char)
  | [] => [[]]
  | c :: rest =>
    let r := splitChars p rest
    if p c then [] :: r
    else (c :: r.headD []) :: r.tail

/-- Python `s.split()` (no argument): split on whitespace runs, dropping empty
tokens. -/
def pySplitWs (s : String) : List String :=
  ((splitChars (fun c => c.isWhitespace) s.toList).filter (fun t => t ≠ [])).map
    String.mk

/-- Python `s.split(sep)` for a one-character separator: empty segments are
kept and the result is never empty. -/
def pySplitOn (sep : Char) (s : String) : List String :=
  (splitChars (fun c => c == sep) s.toList).map String.mk

/-- Recogniser for the digit part of a Python integer literal: one or more
decimal digits with single underscores allowed between digits (Python 3
`int("1_000")` succeeds, `int("1__0")`, `int("_1")`, `int("1_")` fail). -/
def pyIntDigits : List Char → Bool
  | [] => false
  | [c] => c.isDigit
  | c :: '_' :: rest => c.isDigit && pyIntDigits rest
  | c :: rest => c.isDigit && pyIntDigits rest

/-- Decimal value of a digit/underscore list (underscores skipped). -/
def digitsVal (cs : List Char) : Nat :=
  cs.foldl (fun acc c => if c == '_' then acc else acc * 10 + (c.toNat - 48)) 0

/-- Python `int(tok)` on a whitespace-free token: optional sign, then a valid
digit group; `none` models the `ValueError` raise. -/
def pyInt (s : String) : Option Int :=
  match s.toList with
  | '+' :: rest => if pyIntDigits rest then some (digitsVal rest) else none
  | '-' :: rest => if pyIntDigits rest then some (-(digitsVal rest : Int)) else none
  | cs => if pyIntDigits cs then some (digitsVal cs) else none

/-- `int(rec.page_content.strip('"').split()[0])` for one similarity hit:
strip surrounding double quotes, split on whitespace, take the first token,
parse it as a Python integer.  `[0]` on an empty token list is Python's
`IndexError`; a non-integer token is `ValueError`. -/
def parseHit (content : String) : Except String Int :=
  match pySplitWs (pyStripChar '"' content) with
  | [] => Except.error "IndexError: list index out of range"
  | tok :: _ =>
    match pyInt tok with
    | some n => Except.ok n
    | none => Except.error "ValueError: invalid literal for int() with base 10"

/-- Steps 1-4 of `retrieve_semantic_recommendations` (everything before the
tone sort): parse the ISBN of every hit (`books_list`), select the catalog
rows whose `isbn13` is in that set and truncate to `initial_top_k`
(`book_recs`), then apply the category filter and truncate to
`final_top_k`. -/
def filtered_recs (bs : List Book) (hits : List String)
    (category : Option String) (initial_top_k final_top_k : Nat) :
    Except String (List Book) :=
  match hits.mapM parseHit with
  | Except.error e => Except.error e
  | Except.ok books_list =>
    let book_recs :=
      (bs.filter (fun b => books_list.contains b.isbn13)).take initial_top_k
    if category ≠ some "All" then
      Except.ok
        ((book_recs.filter
            (fun b => some b.simple_categories == category)).take final_top_k)
    else
      Except.ok (book_recs.take final_top_k)

/-- `book_recs.sort_values(by=key, ascending=False)`: a permutation of the
input that is non-increasing on `key`. -/
def sortDescBy (key : Book → ℚ) (l : List Book) : List Book :=
  l.insertionSort (fun a b => key b ≤ key a)

/-- Step 5 of `retrieve_semantic_recommendations`: the five-way tone
dispatch; any other tone (including `"All"` and `None`) leaves the list
untouched. -/
def apply_tone (tone : Option String) (book_recs : List Book) : List Book :=
  if tone = some "Happy" then sortDescBy (fun b => b.joy) book_recs
  else if tone = some "Surprising" then sortDescBy (fun b => b.surprise) book_recs
  else if tone = some "Angry" then sortDescBy (fun b => b.anger) book_recs
  else if tone = some "Suspenseful" then sortDescBy (fun b => b.fear) book_recs
  else if tone = some "Sad" then sortDescBy (fun b => b.sadness) book_recs
  else book_recs

/-- `retrieve_semantic_recommendations(query, category, tone, initial_top_k,
final_top_k)`.  The similarity hits for `query` are passed in as `hits`; the
Python defaults are `category = tone = None` (`none`), `initial_top_k = 50`,
`final_top_k = 16`. -/
def retrieve_semantic_recommendations (bs : List Book) (hits : List String)
    (category tone : Option String) (initial_top_k final_top_k : Nat) :
    Except String (List Book) :=
  (filtered_recs bs hits category initial_top_k final_top_k).map
    (apply_tone tone)

/-- Python `sep.join(parts)`. -/
def joinWith (sep : String) : List String → String
  | [] => ""
  | [x] => x
  | x :: xs => x ++ sep ++ joinWith sep xs

/-- The description truncation in `recommend_books`:
`" ".join(description.split()[:30]) + "..."`. -/
def truncate_description (description : String) : String :=
  joinWith " " ((pySplitWs description).take 30) ++ "..."

/-- The author-phrase formatting in `recommend_books`: split on `";"`; two
parts become `"A and B"`, more than two become
`", ".join(parts[:-1]) + ", and " + parts[-1]`, anything else is the raw
string. -/
def format_authors (authors : String) : String :=
  let authors_split := pySplitOn ';' authors
  if authors_split.length == 2 then
    authors_split.headD "" ++ " and " ++ authors_split.getLastD ""
  else if authors_split.length > 2 then
    joinWith ", " authors_split.dropLast ++ ", and " ++ authors_split.getLastD ""
  else
    authors

/-- `recommend_books(query, category, tone)`: run the retrieval with the
default pool sizes, then map each recommended row to its
`(large_thumbnail, caption)` pair. -/
def recommend_books (bs : List Book) (hits : List String)
    (category tone : Option String) : Except String (List (String × String)) :=
  match retrieve_semantic_recommendations bs hits category tone 50 16 with
  | Except.error e => Except.error e
  | Except.ok recommendations =>
    Except.ok (recommendations.map (fun row =>
      (row.large_thumbnail,
       row.title ++ " by " ++ format_authors row.authors ++ ": " ++
         truncate_description row.description)))

/-- The two catalog-load lines: `books["thumbnail"] + "&fife=w800"` is NaN
when `thumbnail` is NaN (string + NaN propagates), and `np.where(isna, ...)`
replaces exactly the NaN entries with `"cover-not-found.jpg"`. -/
def derive_large_thumbnail (thumbnail : Option String) : String :=
  match thumbnail.map (fun u => u ++ "&fife=w800") with
  | none => "cover-not-found.jpg"
  | some u => u

/-- The catalog preparation applied to every row right after `read_csv`. -/
def prep_books (bs : List Book) : List Book :=
  bs.map (fun b => { b with large_thumbnail := derive_large_thumbnail b.thumbnail })

/-- The process-wide shared state: the `books` DataFrame (the similarity
index is the external black box already abstracted by `hits`). -/
structure Sys where
  books : List Book

/-- `retrieve_semantic_recommendations` as a state transformer on the shared
table.  `books[mask]`, `.head(n)` and the subsequent category filter all
build fresh frames in pandas, so `book_recs` is a copy of the selected rows;
`book_recs.sort_values(..., inplace=True)` therefore mutates only that local
copy, and the global `books` table comes back unchanged. -/
def retrieve_st (s : Sys) (hits : List String) (category tone : Option String)
    (initial_top_k final_top_k : Nat) : Except String (List Book) × Sys :=
  (retrieve_semantic_recommendations s.books hits category tone
      initial_top_k final_top_k, s)

/-- `recommend_books` as a state transformer: it reads rows out of the
retrieval result and builds a fresh list of pairs, never writing the shared
table. -/
def recommend_books_st (s : Sys) (hits : List String)
    (category tone : Option String) :
    Except String (List (String × String)) × Sys :=
  (recommend_books s.books hits category tone, s)

end BookRec

namespace BookRec

/-! ## Helper lemmas -/

theorem except_map_eq_ok {ε α β : Type} {f : α → β} {e : Except ε α} {b : β}
    (h : Except.map f e = Except.ok b) : ∃ a, e = Except.ok a ∧ b = f a := by
  cases e with
  | error err => simp [Except.map] at h
  | ok a => exact ⟨a, rfl, by simpa [Except.map] using h.symm⟩

theorem apply_tone_length (tone : Option String) (l : List Book) :
    (apply_tone tone l).length = l.length := by
  unfold apply_tone sortDescBy
  split_ifs <;> simp

theorem apply_tone_mem (tone : Option String) (l : List Book) (b : Book) :
    b ∈ apply_tone tone l ↔ b ∈ l := by
  unfold apply_tone sortDescBy
  split_ifs <;> simp

theorem apply_tone_nil (tone : Option String) : apply_tone tone [] = [] := by
  unfold apply_tone sortDescBy
  split_ifs <;> rfl

theorem filtered_recs_length_le {bs : List Book} {hits : List String}
    {category : Option String} {ik fk : Nat} {l : List Book}
    (h : filtered_recs bs hits category ik fk = Except.ok l) :
    l.length ≤ fk := by
  unfold filtered_recs at h
  cases hm : hits.mapM parseHit with
  | error e => rw [hm] at h; cases h
  | ok ids =>
    rw [hm] at h
    split_ifs at h with hc <;>
      (cases h; exact List.length_take_le _ _)

theorem intercalate_go_eq_joinWith (sep : String) :
    ∀ (as : List String) (a : String),
      String.intercalate.go a sep as = joinWith sep (a :: as)
  | [], a => rfl
  | b :: bs, a => by
    have h1 : String.intercalate.go a sep (b :: bs) =
        String.intercalate.go (a ++ sep ++ b) sep bs := rfl
    rw [h1, intercalate_go_eq_joinWith sep bs (a ++ sep ++ b)]
    cases bs with
    | nil => simp [joinWith, String.append_assoc]
    | cons c cs => simp [joinWith, String.append_assoc]

theorem joinWith_eq_intercalate (sep : String) (l : List String) :
    joinWith sep l = String.intercalate sep l := by
  cases l with
  | nil => rfl
  | cons a as =>
    have h : String.intercalate sep (a :: as) = String.intercalate.go a sep as := rfl
    rw [h, intercalate_go_eq_joinWith sep as a]

/-! ## Witness data: a tiny concrete catalog -/

/-- Concrete book number 1: category Fiction, all emotion scores 1. -/
def wb1 : Book :=
  { isbn13 := 1, title := "T1", authors := "A1", description := "D1",
    simple_categories := "Fiction", thumbnail := none, large_thumbnail := "",
    joy := 1, surprise := 1, anger := 1, fear := 1, sadness := 1 }

/-- Concrete book number 2: category Drama, all emotion scores 5. -/
def wb2 : Book :=
  { isbn13 := 2, title := "T2", authors := "A2", description := "D2",
    simple_categories := "Drama", thumbnail := none, large_thumbnail := "",
    joy := 5, surprise := 5, anger := 5, fear := 5, sadness := 5 }

/-- Concrete book number 3: category Fiction, all emotion scores 3. -/
def wb3 : Book :=
  { isbn13 := 3, title := "T3", authors := "A3", description := "D3",
    simple_categories := "Fiction", thumbnail := none, large_thumbnail := "",
    joy := 3, surprise := 3, anger := 3, fear := 3, sadness := 3 }

/-- A three-row concrete catalog. -/
def wBooks : List Book := [wb1, wb2, wb3]

/-- Hit contents whose leading tokens are the three catalog ISBNs. -/
def wHits : List String := ["1", "2", "3"]

/-! ## C1: at most `final_k` records -/

/-- Claim C1: with the default pool sizes (`initial_top_k = 50`,
`final_top_k = 16`), whatever the similarity hits, the category and the tone,
any list returned by `retrieve_semantic_recommendations` has at most 16
records. -/
theorem retrieve_at_most_final_k (bs : List Book) (hits : List String)
    (category tone : Option String) (l : List Book)
    (h : retrieve_semantic_recommendations bs hits category tone 50 16 =
      Except.ok l) :
    l.length ≤ 16 := by
  obtain ⟨l0, he, rfl⟩ := except_map_eq_ok h
  rw [apply_tone_length]
  exact filtered_recs_length_le he

/-- Witness for C1 at the concrete three-book catalog. -/
theorem retrieve_at_most_final_k_witness :
    ([wb1, wb2, wb3] : List Book).length ≤ 16 :=
  retrieve_at_most_final_k wBooks wHits (some "All") none [wb1, wb2, wb3] rfl

/-! ## C6: thumbnail derivation -/

/-- Claim C6: after catalog load, every row's derived `large_thumbnail` is the
placeholder `"cover-not-found.jpg"` when the source `thumbnail` URL is absent,
and the source URL with `"&fife=w800"` appended when it is present. -/
theorem prep_books_thumbnail (bs : List Book) :
    ∀ b ∈ prep_books bs,
      (b.thumbnail = none → b.large_thumbnail = "cover-not-found.jpg") ∧
      (∀ u, b.thumbnail = some u → b.large_thumbnail = u ++ "&fife=w800") := by
  intro b hb
  rw [prep_books, List.mem_map] at hb
  obtain ⟨a, -, rfl⟩ := hb
  refine ⟨fun h => ?_, fun u h => ?_⟩
  · simp only at h
    simp [derive_large_thumbnail, h]
  · simp only at h
    simp [derive_large_thumbnail, h]

/-- A concrete book with no cover URL. -/
def bkNoThumb : Book :=
  { isbn13 := 11, title := "T", authors := "A", description := "D",
    simple_categories := "Fiction", thumbnail := none, large_thumbnail := "",
    joy := 0, surprise := 0, anger := 0, fear := 0, sadness := 0 }

/-- A concrete book with a cover URL. -/
def bkThumb : Book :=
  { bkNoThumb with isbn13 := 12, thumbnail := some "http://x" }

/-- Witness for C6 on a two-row catalog, one absent and one present URL. -/
theorem prep_books_thumbnail_witness :
    ((prep_books [bkNoThumb, bkThumb]).headD bkNoThumb).large_thumbnail =
        "cover-not-found.jpg" ∧
    ((prep_books [bkNoThumb, bkThumb]).getLastD bkNoThumb).large_thumbnail =
        "http://x" ++ "&fife=w800" := by
  constructor
  · exact (prep_books_thumbnail [bkNoThumb, bkThumb]
      ((prep_books [bkNoThumb, bkThumb]).headD bkNoThumb) (by decide)).1 rfl
  · exact (prep_books_thumbnail [bkNoThumb, bkThumb]
      ((prep_books [bkNoThumb, bkThumb]).getLastD bkNoThumb) (by decide)).2
      "http://x" rfl

/-! ## C7: description truncation -/

/-- Claim C7: the description formatting in `recommend_books` yields the first
30 whitespace-separated tokens joined by single spaces plus the `"..."`
marker when the description has more than 30 tokens, and all tokens joined
plus the marker (no special case) when it has 30 or fewer. -/
theorem truncate_description_spec (d : String) :
    (30 < (pySplitWs d).length →
      truncate_description d =
        String.intercalate " " ((pySplitWs d).take 30) ++ "...") ∧
    ((pySplitWs d).length ≤ 30 →
      truncate_description d = String.intercalate " " (pySplitWs d) ++ "...") := by
  constructor
  · intro _
    rw [truncate_description, joinWith_eq_intercalate]
  · intro h
    rw [truncate_description, joinWith_eq_intercalate, List.take_of_length_le h]

/-- Witness for C7: a 31-token description and a 2-token description. -/
theorem truncate_description_witness :
    truncate_description
        "a a a a a a a a a a a a a a a a a a a a a a a a a a a a a a a" =
      String.intercalate " "
        ((pySplitWs
            "a a a a a a a a a a a a a a a a a a a a a a a a a a a a a a a").take
          30) ++ "..." ∧
    truncate_description "a b" =
      String.intercalate " " (pySplitWs "a b") ++ "..." :=
  ⟨(truncate_description_spec
      "a a a a a a a a a a a a a a a a a a a a a a a a a a a a a a a").1
      (by decide),
   (truncate_description_spec "a b").2 (by decide)⟩

/-! ## C8: author-phrase formatting -/

/-- Claim C8: splitting `authors` on `";"`, the formatter in
`recommend_books` leaves a single author unchanged, renders two authors
`[a, b]` as `a ++ " and " ++ b`, and renders three or more authors as the
comma-join of all but the last followed by `", and "` and the last. -/
theorem format_authors_spec (s : String) :
    ((pySplitOn ';' s).length = 1 → format_authors s = s) ∧
    (∀ a b, pySplitOn ';' s = [a, b] → format_authors s = a ++ " and " ++ b) ∧
    (3 ≤ (pySplitOn ';' s).length →
      format_authors s =
        String.intercalate ", " ((pySplitOn ';' s).dropLast) ++ ", and " ++
          (pySplitOn ';' s).getLastD "") := by
  refine ⟨fun h1 => ?_, fun a b hab => ?_, fun h3 => ?_⟩
  · rw [format_authors]
    rw [if_neg (by simp [h1]), if_neg (by simp [h1])]
  · rw [format_authors, hab]
    rfl
  · rw [format_authors]
    rw [if_neg (by simp; omega), if_pos (by simp; omega),
      joinWith_eq_intercalate]

/-- Witness for C8 at one, two and three authors. -/
theorem format_authors_witness :
    format_authors "Solo" = "Solo" ∧
    format_authors "A;B" = "A" ++ " and " ++ "B" ∧
    format_authors "A;B;C" =
      String.intercalate ", " ["A", "B"] ++ ", and " ++ "C" :=
  ⟨(format_authors_spec "Solo").1 (by decide),
   (format_authors_spec "A;B").2.1 "A" "B" (by decide),
   (format_authors_spec "A;B;C").2.2 (by decide)⟩

/-! ## C2: category filter correctness -/

theorem filtered_recs_category {bs : List Book} {hits : List String}
    {category : Option String} {ik fk : Nat} {l : List Book}
    (hc : category ≠ some "All")
    (h : filtered_recs bs hits category ik fk = Except.ok l) :
    ∀ b ∈ l, some b.simple_categories = category := by
  unfold filtered_recs at h
  cases hm : hits.mapM parseHit with
  | error e => rw [hm] at h; cases h
  | ok ids =>
    rw [hm] at h
    split_ifs at h
    cases h
    intro b hb
    have hb2 := List.take_subset _ _ hb
    exact eq_of_beq (List.mem_filter.1 hb2).2

/-- Claim C2: whenever the requested category is not the sentinel `"All"`,
every record returned by `retrieve_semantic_recommendations` has its
`simple_categories` field equal to the requested category. -/
theorem retrieve_category_matches (bs : List Book) (hits : List String)
    (category tone : Option String) (ik fk : Nat) (l : List Book)
    (hc : category ≠ some "All")
    (h : retrieve_semantic_recommendations bs hits category tone ik fk =
      Except.ok l) :
    ∀ b ∈ l, some b.simple_categories = category := by
  obtain ⟨l0, he, rfl⟩ := except_map_eq_ok h
  intro b hb
  exact filtered_recs_category hc he b ((apply_tone_mem tone l0 b).1 hb)

/-- Witness for C2: requesting `"Fiction"` on the concrete catalog returns
`[wb1, wb3]`, and the first record is indeed a Fiction book. -/
theorem retrieve_category_matches_witness :
    some wb1.simple_categories = some "Fiction" :=
  retrieve_category_matches wBooks wHits (some "Fiction") none 50 16
    [wb1, wb3] (by decide) rfl wb1 (by decide)

/-! ## C3: tone sort -/

theorem sortDescBy_pairwise (key : Book → ℚ) (l : List Book) :
    (sortDescBy key l).Pairwise (fun a b => key b ≤ key a) := by
  haveI : IsTotal Book (fun a b : Book => key b ≤ key a) :=
    ⟨fun a b => le_total (key b) (key a)⟩
  haveI : IsTrans Book (fun a b : Book => key b ≤ key a) :=
    ⟨fun a b c hab hbc => le_trans hbc hab⟩
  exact List.sorted_insertionSort _ l

/-- Claim C3: when the tone is one of the five recognised labels, the
corresponding emotion column is non-increasing along the returned list; when
the tone is anything else (including `"All"`), the result is exactly the
output of the category-filter step, order untouched. -/
theorem retrieve_tone_sort (bs : List Book) (hits : List String)
    (category tone : Option String) (ik fk : Nat) :
    (∀ l, retrieve_semantic_recommendations bs hits category tone ik fk =
        Except.ok l →
      (tone = some "Happy" → l.Pairwise (fun a b => b.joy ≤ a.joy)) ∧
      (tone = some "Surprising" →
        l.Pairwise (fun a b => b.surprise ≤ a.surprise)) ∧
      (tone = some "Angry" → l.Pairwise (fun a b => b.anger ≤ a.anger)) ∧
      (tone = some "Suspenseful" → l.Pairwise (fun a b => b.fear ≤ a.fear)) ∧
      (tone = some "Sad" → l.Pairwise (fun a b => b.sadness ≤ a.sadness))) ∧
    (tone ≠ some "Happy" → tone ≠ some "Surprising" → tone ≠ some "Angry" →
      tone ≠ some "Suspenseful" → tone ≠ some "Sad" →
      retrieve_semantic_recommendations bs hits category tone ik fk =
        filtered_recs bs hits category ik fk) := by
  constructor
  · intro l h
    obtain ⟨l0, he, rfl⟩ := except_map_eq_ok h
    refine ⟨fun ht => ?_, fun ht => ?_, fun ht => ?_, fun ht => ?_,
      fun ht => ?_⟩ <;>
      (subst ht; simp only [apply_tone, reduceIte];
       exact sortDescBy_pairwise _ l0)
  · intro h1 h2 h3 h4 h5
    unfold retrieve_semantic_recommendations
    have ha : apply_tone tone = fun l => l := by
      funext l
      unfold apply_tone
      rw [if_neg h1, if_neg h2, if_neg h3, if_neg h4, if_neg h5]
    rw [ha]
    rcases filtered_recs bs hits category ik fk with e | l0 <;> rfl

/-- Witness for C3: tone `"Happy"` on the concrete catalog returns the rows
in non-increasing `joy` order, and an unrecognised tone `"Calm"` leaves the
category-filter output untouched. -/
theorem retrieve_tone_sort_witness :
    ([wb2, wb3, wb1] : List Book).Pairwise (fun a b => b.joy ≤ a.joy) ∧
    retrieve_semantic_recommendations wBooks wHits (some "All") (some "Calm")
        50 16 =
      filtered_recs wBooks wHits (some "All") 50 16 :=
  ⟨((retrieve_tone_sort wBooks wHits (some "All") (some "Happy") 50 16).1
      [wb2, wb3, wb1] rfl).1 rfl,
   (retrieve_tone_sort wBooks wHits (some "All") (some "Calm") 50 16).2
     (by decide) (by decide) (by decide) (by decide) (by decide)⟩

/-! ## C10: the default category `None` empties the result -/

/-- Claim C10: calling `retrieve_semantic_recommendations` with the default
`category = None` runs the filter branch (since `None != "All"`), the
elementwise comparison of every row's category against `None` is false, and
the returned list is always empty, whatever the hits, tone and pool sizes. -/
theorem retrieve_none_category_empty (bs : List Book) (hits : List String)
    (tone : Option String) (ik fk : Nat) (l : List Book)
    (h : retrieve_semantic_recommendations bs hits none tone ik fk =
      Except.ok l) :
    l = [] := by
  obtain ⟨l0, he, rfl⟩ := except_map_eq_ok h
  suffices hl0 : l0 = [] by rw [hl0]; exact apply_tone_nil tone
  unfold filtered_recs at he
  cases hm : hits.mapM parseHit with
  | error e => rw [hm] at he; cases he
  | ok ids =>
    rw [hm] at he
    split_ifs at he with hcond
    · cases he
      have hf :
          ((bs.filter (fun b => ids.contains b.isbn13)).take ik).filter
              (fun b => some b.simple_categories == (none : Option String)) =
            [] := by
        simp
      rw [hf, List.take_nil]
    · simp at hcond

/-- Witness for C10: even with hits matching every catalog row, the default
`None` category yields the empty result. -/
theorem retrieve_none_category_empty_witness :
    retrieve_semantic_recommendations wBooks wHits none none 50 16 =
        Except.ok [] ∧
    ([] : List Book) = [] :=
  ⟨rfl, retrieve_none_category_empty wBooks wHits none 50 16 [] rfl⟩

/-! ## C5: silent degradation at query time -/

/-- Counterexample to C5 as stated: a hit whose content is the empty string
makes `int(rec.page_content.strip('"').split()[0])` raise (Python
`IndexError` on `[0]`), so `retrieve_semantic_recommendations` does not run
without error on arbitrary hit content. -/
theorem retrieve_error_on_malformed_hit :
    retrieve_semantic_recommendations [] [""] (some "All") none 50 16 =
      Except.error "IndexError: list index out of range" := rfl

theorem mapM_parseHit_ok_aux : ∀ {hits : List String},
    (∀ s ∈ hits, (parseHit s).isOk = true) →
    ∃ ids, List.mapM' parseHit hits = Except.ok ids
  | [], _ => ⟨[], rfl⟩
  | a :: as, h => by
    obtain ⟨ids, hids⟩ :=
      mapM_parseHit_ok_aux (fun s hs => h s (List.mem_cons_of_mem a hs))
    have ha := h a (List.mem_cons_self a as)
    cases hp : parseHit a with
    | error e => rw [hp] at ha; simp [Except.isOk, Except.toBool] at ha
    | ok n =>
      refine ⟨n :: ids, ?_⟩
      have hdef : List.mapM' parseHit (a :: as) =
          parseHit a >>= fun b =>
            List.mapM' parseHit as >>= fun bs => pure (b :: bs) := rfl
      rw [hdef, hp]
      show List.mapM' parseHit as >>= (fun bs => pure (n :: bs)) =
        Except.ok (n :: ids)
      rw [hids]
      rfl

theorem mapM_parseHit_ok {hits : List String}
    (h : ∀ s ∈ hits, (parseHit s).isOk = true) :
    ∃ ids, hits.mapM parseHit = Except.ok ids := by
  rw [← List.mapM'_eq_mapM]
  exact mapM_parseHit_ok_aux h

theorem filtered_recs_ok {bs : List Book} {hits : List String}
    {category : Option String} {ik fk : Nat} {ids : List Int}
    (hm : hits.mapM parseHit = Except.ok ids) :
    ∃ l0, filtered_recs bs hits category ik fk = Except.ok l0 := by
  unfold filtered_recs
  rw [hm]
  split_ifs <;> exact ⟨_, rfl⟩

theorem filtered_recs_mem {bs : List Book} {hits : List String}
    {category : Option String} {ik fk : Nat} {l : List Book} {ids : List Int}
    (hm : hits.mapM parseHit = Except.ok ids)
    (h : filtered_recs bs hits category ik fk = Except.ok l) :
    ∀ b ∈ l, b ∈ bs ∧ ids.contains b.isbn13 = true := by
  unfold filtered_recs at h
  rw [hm] at h
  intro b hb
  split_ifs at h
  · cases h
    have hb2 := List.take_subset _ _ hb
    have hb3 := (List.mem_filter.1 hb2).1
    have hb4 := List.take_subset _ _ hb3
    exact ⟨(List.mem_filter.1 hb4).1, (List.mem_filter.1 hb4).2⟩
  · cases h
    have hb2 := List.take_subset _ _ hb
    have hb3 := List.take_subset _ _ hb2
    exact ⟨(List.mem_filter.1 hb3).1, (List.mem_filter.1 hb3).2⟩

theorem filtered_recs_no_match {bs : List Book} {hits : List String}
    {category : Option String} {ik fk : Nat} {ids : List Int}
    (hm : hits.mapM parseHit = Except.ok ids)
    (hnone : ∀ b ∈ bs, ids.contains b.isbn13 = false) :
    filtered_recs bs hits category ik fk = Except.ok [] := by
  have hf : bs.filter (fun b => ids.contains b.isbn13) = [] :=
    List.filter_eq_nil_iff.2 (fun b hb => by simpa using hnone b hb)
  unfold filtered_recs
  rw [hm]
  dsimp only
  split_ifs
  · rw [hf, List.take_nil, List.filter_nil, List.take_nil]
  · rw [hf, List.take_nil, List.take_nil]

/-- Claim C5, amended: provided every hit's content carries a leading
integer-parseable token (which every line of `tagged_description.txt` does),
the query path raises nothing: the parse succeeds, the retrieval returns
`ok`, every returned record comes from the catalog with its ISBN among the
parsed hits (hits matching no catalog ISBN are silently dropped), and when no
hit ISBN matches any catalog row the result is the empty list rather than an
error. -/
theorem retrieve_silent_on_wellformed_hits (bs : List Book)
    (hits : List String) (category tone : Option String) (ik fk : Nat)
    (h : ∀ s ∈ hits, (parseHit s).isOk = true) :
    ∃ ids l,
      hits.mapM parseHit = Except.ok ids ∧
      retrieve_semantic_recommendations bs hits category tone ik fk =
        Except.ok l ∧
      (∀ b ∈ l, b ∈ bs ∧ ids.contains b.isbn13 = true) ∧
      ((∀ b ∈ bs, ids.contains b.isbn13 = false) → l = []) := by
  obtain ⟨ids, hm⟩ := mapM_parseHit_ok h
  obtain ⟨l0, hf⟩ := filtered_recs_ok hm
  refine ⟨ids, apply_tone tone l0, hm, ?_, ?_, ?_⟩
  · unfold retrieve_semantic_recommendations
    rw [hf]
    rfl
  · intro b hb
    exact filtered_recs_mem hm hf b ((apply_tone_mem tone l0 b).1 hb)
  · intro hnone
    have h0 := @filtered_recs_no_match bs hits category ik fk ids hm hnone
    rw [hf] at h0
    injection h0 with h0
    rw [h0]
    exact apply_tone_nil tone

/-- Witness for C5 (amended) at a hit list with one matching and one
unmatched ISBN. -/
theorem retrieve_silent_on_wellformed_hits_witness :
    ∃ ids l,
      (["1", "99"] : List String).mapM parseHit = Except.ok ids ∧
      retrieve_semantic_recommendations wBooks ["1", "99"] (some "All") none
          50 16 =
        Except.ok l ∧
      (∀ b ∈ l, b ∈ wBooks ∧ ids.contains b.isbn13 = true) ∧
      ((∀ b ∈ wBooks, ids.contains b.isbn13 = false) → l = []) :=
  retrieve_silent_on_wellformed_hits wBooks ["1", "99"] (some "All") none
    50 16 (by decide)

/-! ## C4: the category filter runs after the truncation to `initial_top_k` -/

/-- Decimal rendering of a two-digit number, for hit contents. -/
def twoDigitStr (n : Nat) : String :=
  String.mk [Nat.digitChar (n / 10), Nat.digitChar (n % 10)]

/-- A catalog row with the given ISBN and category (other fields fixed). -/
def mkBookC (i : Int) (cat : String) : Book :=
  { isbn13 := i, title := "T", authors := "A", description := "D",
    simple_categories := cat, thumbnail := none, large_thumbnail := "",
    joy := 0, surprise := 0, anger := 0, fear := 0, sadness := 0 }

/-- A 66-row catalog: ISBNs 10-59 in category Other, ISBNs 60-75 in category
Fiction. -/
def c4Books : List Book :=
  ((List.range 50).map (fun i => mkBookC (10 + i) "Other")) ++
  ((List.range 16).map (fun i => mkBookC (60 + i) "Fiction"))

/-- Hit contents whose leading tokens are the 66 catalog ISBNs 10-75. -/
def c4Hits : List String := (List.range 66).map (fun i => twoDigitStr (10 + i))

/-- The ISBNs parsed from `c4Hits`. -/
def c4Ids : List Int := (List.range 66).map (fun i => (10 + i : Int))

set_option maxRecDepth 10000 in
/-- Claim C4: because the candidate set is truncated to the first
`initial_top_k` (50) catalog rows before the category filter runs, there is
an input — a hit set and a category — on which the result has fewer than
`final_top_k` (16) records even though at least 16 catalog rows among the
similarity hits match that category. -/
theorem category_filter_after_truncation :
    ∃ (bs : List Book) (hits : List String) (c : String) (ids : List Int)
      (l : List Book),
      hits.mapM parseHit = Except.ok ids ∧
      retrieve_semantic_recommendations bs hits (some c) none 50 16 =
        Except.ok l ∧
      l.length < 16 ∧
      16 ≤ (bs.filter
          (fun b => ids.contains b.isbn13 && (b.simple_categories == c))).length :=
  ⟨c4Books, c4Hits, "Fiction", c4Ids, [], rfl, rfl, by decide, by decide⟩

/-! ## C9: the shared catalog table is never written after startup -/

/-- Claim C9: both entry points leave the process-wide `books` table exactly
as they found it — the in-place tone sort operates on the derived frame
`book_recs`, never on the shared table. -/
theorem shared_state_read_only (s : Sys) (hits : List String)
    (category tone : Option String) (ik fk : Nat) :
    (retrieve_st s hits category tone ik fk).2 = s ∧
    (recommend_books_st s hits category tone).2 = s :=
  ⟨rfl, rfl⟩

end BookRec
